import Mathlib

/-!
Shallow embedding of `app.py` from the Ground_Water_Condition_Detection repository:
a Flask service exposing POST /predict (feature vector → anomaly label, email alert,
SQLite insert) and GET /history (newest 100 rows).

Modelling conventions:
  * JSON scalar values (the payload of `request.json`) are `JVal`; numbers are ℚ
    (the spec declares NaN/infinity out of scope, so exact rationals model the
    ordering behaviour of the float comparisons).
  * Python `float(x)` is `pyFloat` (numbers, booleans, decimal-literal strings;
    exponent/inf/nan string forms are outside the claims and parse to `none`,
    matching the failure class).
  * The external model/scaler artifacts are opaque parameters (`ModelArtifacts`).
  * Exceptions escaping the handler are `Except.error`; Flask turns any uncaught
    exception into an HTTP 500 response (`httpStatus`).
  * The SQLite table is `DbState`: a list of committed rows plus the AUTOINCREMENT
    counter `nextId` (the `id INTEGER PRIMARY KEY AUTOINCREMENT` column of
    `init_db`); `features_json` is kept as the key-value mapping it serializes
    (the textual JSON encoding is treated as an opaque, lossless wrapper, as the
    spec does).
  * Side effects of one request are an event trace (`Event`): email outcomes and
    the row insert, in program order.
-/

/-- A scalar JSON value as found in a `request.json` payload. -/
inductive JVal where
  | num  : ℚ → JVal
  | str  : String → JVal
  | bool : Bool → JVal
  | null : JVal
deriving DecidableEq, Repr

/-- Python truthiness of a scalar JSON value (`if data.get("latitude")`). -/
def truthy : JVal → Bool
  | .num q  => q ≠ 0
  | .str s  => s ≠ ""
  | .bool b => b
  | .null   => false

/-- Value of a digit string, most significant first. -/
def natOfDigits (l : List Char) : ℕ :=
  l.foldl (fun a c => 10 * a + (c.toNat - 48)) 0

/-- Unsigned decimal literal: digits with an optional single decimal point,
at least one digit overall. The value of `ii.ff` is the integer `iiff` over
`10 ^ |ff|`. -/
def parseUnsigned (l : List Char) : Option ℚ :=
  let intPart := l.takeWhile Char.isDigit
  match l.dropWhile Char.isDigit with
  | [] => if intPart = [] then none else some (mkRat (natOfDigits intPart) 1)
  | '.' :: frac =>
      if frac.all Char.isDigit && !(intPart = [] && frac = []) then
        some (mkRat (natOfDigits (intPart ++ frac)) (10 ^ frac.length))
      else none
  | _ => none

/-- Strip leading and trailing whitespace, as Python `str.strip()` does. -/
def trimChars (l : List Char) : List Char :=
  ((l.dropWhile Char.isWhitespace).reverse.dropWhile Char.isWhitespace).reverse

/-- Python `float(s)` on a string: strip whitespace, optional sign, decimal
literal. (Exponent and inf/nan forms are not modelled; they do not occur in
the claims.) -/
def parseFloatStr (s : String) : Option ℚ :=
  match trimChars s.toList with
  | '-' :: rest => (parseUnsigned rest).map Neg.neg
  | '+' :: rest => parseUnsigned rest
  | l => parseUnsigned l

/-- Python `float(x)` on a scalar JSON value: numbers pass through, booleans
cast to 0/1, strings are parsed, `None` raises (`none` here). -/
def pyFloat : JVal → Option ℚ
  | .num q  => some q
  | .bool b => some (if b then 1 else 0)
  | .str s  => parseFloatStr s
  | .null   => none

/-- A JSON object payload: finite mapping from field name to scalar value.
Keys are unique by construction of a Python dict. -/
def Payload := List (String × JVal)

/-- Dictionary lookup `data.get(k)` / `data[k]` (the latter raising on `none`). -/
def plookup (d : Payload) (k : String) : Option JVal :=
  (d.find? (fun p => p.1 = k)).map (fun p => p.2)

/-- Exceptions that can escape the `/predict` handler: `KeyError` from a missing
dict key, `ValueError`/`TypeError` from a failed `float(...)` cast (merged, the
claims never distinguish them), and a database error from `execute`/`commit`. -/
inductive PyErr where
  | keyError : String → PyErr
  | castError : PyErr
  | dbError : PyErr
deriving DecidableEq, Repr

/-- The canonical feature order (`features_order` in `app.py`). -/
def features_order : List String := [
  "Recharge from rainfall During Monsoon Season",
  "Recharge from other sources During Monsoon Season",
  "Recharge from rainfall During Non Monsoon Season",
  "Recharge from other sources During Non Monsoon Season",
  "Total Natural Discharges",
  "Current Annual Ground Water Extraction For Irrigation",
  "Current Annual Ground Water Extraction For Domestic & Industrial Use",
  "Net Ground Water Availability for future use",
  "Stage of Ground Water Extraction (%)"]

/-- The static threshold table (`critical_thresholds` in `app.py`), in source
(= Python dict iteration) order. -/
def critical_thresholds : List (String × ℚ) := [
  ("Recharge from rainfall During Monsoon Season", 40075),
  ("Recharge from other sources During Monsoon Season", 9366),
  ("Recharge from rainfall During Non Monsoon Season", 4850),
  ("Recharge from other sources During Non Monsoon Season", 12124),
  ("Total Natural Discharges", 5597),
  ("Current Annual Ground Water Extraction For Irrigation", 35530),
  ("Current Annual Ground Water Extraction For Domestic & Industrial Use", 4215),
  ("Net Ground Water Availability for future use", 26498),
  ("Stage of Ground Water Extraction (%)", mkRat 607 10)]

/-- `float(data[f])`: KeyError if the field is absent, cast error if not
castable, otherwise the numeric value. -/
def castFeature (d : Payload) (f : String) : Except PyErr ℚ :=
  match plookup d f with
  | none => .error (.keyError f)
  | some v =>
      match pyFloat v with
      | some q => .ok q
      | none => .error .castError

/-- `[float(data[f]) for f in features_order]` (line 130), failing at the first
missing or non-castable field, in order. -/
def buildVectorAux (d : Payload) : List String → Except PyErr (List ℚ)
  | [] => .ok []
  | f :: fs =>
      match castFeature d f with
      | .error e => .error e
      | .ok q =>
          match buildVectorAux d fs with
          | .error e => .error e
          | .ok qs => .ok (q :: qs)

/-- The feature vector of a payload. -/
def buildVector (d : Payload) : Except PyErr (List ℚ) :=
  buildVectorAux d features_order

/-- `any(float(data[f]) > critical_thresholds[f] for f in critical_thresholds)`
(line 136): short-circuiting, re-looking-up and re-casting each field. -/
def thresholdTriggerAux (d : Payload) : List (String × ℚ) → Except PyErr Bool
  | [] => .ok false
  | (f, t) :: rest =>
      match castFeature d f with
      | .error e => .error e
      | .ok q => if t < q then .ok true else thresholdTriggerAux d rest

/-- The threshold-trigger flag of a payload. -/
def thresholdTrigger (d : Payload) : Except PyErr Bool :=
  thresholdTriggerAux d critical_thresholds

/-- The loaded scaler and isolation-forest artifacts, opaque to this service:
`scaler.transform`, `model.predict` and `model.decision_function` restricted to
a single row. -/
structure ModelArtifacts where
  scalerTransform : List ℚ → List ℚ
  modelPredict : List ℚ → Int
  decision_function : List ℚ → ℚ

/-- Environment configuration and the outcome of the two external effects of a
request: whether the SMTP round-trip would succeed, and whether the database
insert/commit would succeed. -/
structure ExtWorld where
  alertEmail : Option String
  emailSender : Option String
  emailPassword : Option String
  smtpOk : Bool
  dbOk : Bool

/-- Python truthiness of `os.getenv(...)`: `None` and `""` are falsy. -/
def envTruthy : Option String → Bool
  | none => false
  | some s => s ≠ ""

/-- Information content of the alert email composed at lines 143-147: the label
in the subject, the coordinates as taken from the payload by `data.get`, and the
decision score. -/
structure AlertMsg where
  label : String
  latitude : Option JVal
  longitude : Option JVal
  score : ℚ
deriving DecidableEq, Repr

/-- One database row of the `predictions` table (column names as in `init_db`).
`features_json` keeps the mapping that line 163 serializes. -/
structure Record where
  id : ℕ
  timestamp : String
  state : Option String
  district : Option String
  latitude : Option ℚ
  longitude : Option ℚ
  features_json : List (String × JVal)
  raw_prediction : Int
  decision_score : ℚ
  label : Option String
deriving DecidableEq, Repr

/-- Observable side effects of one request, in program order. -/
inductive Event where
  | emailSkippedNoCreds
  | emailSent (dest : String) (msg : AlertMsg)
  | emailFailed
  | dbInsert (r : Record)
deriving DecidableEq, Repr

/-- `send_email_alert(subject, message, to_email)` (lines 30-54): skip when
sender or password is missing/empty; otherwise attempt the send, catching every
exception. Total: it never raises to its caller. -/
def send_email_alert (w : ExtWorld) (msg : AlertMsg) (dest : String) : List Event :=
  if !envTruthy w.emailSender || !envTruthy w.emailPassword then
    [.emailSkippedNoCreds]
  else if w.smtpOk then
    [.emailSent dest msg]
  else
    [.emailFailed]

/-- Lines 140-148: `receiver_email = os.getenv("ALERT_EMAIL")`, and the alert
is composed and sent only when that value is truthy. -/
def alertEvents (w : ExtWorld) (msg : AlertMsg) : List Event :=
  match w.alertEmail with
  | some dest => if dest ≠ "" then send_email_alert w msg dest else []
  | none => []

/-- The `predictions` table: committed rows plus the AUTOINCREMENT counter,
which SQLite keeps strictly above every id ever issued. -/
structure DbState where
  records : List Record
  nextId : ℕ
deriving DecidableEq, Repr

/-- The JSON body of a 200 response from `/predict` (lines 170-175). -/
structure Response where
  success : Bool
  label : String
  raw_prediction : Int
  decision_score : ℚ
deriving DecidableEq, Repr

/-- `float(data[k]) if data.get(k) else None` (lines 161-162): absent or falsy
gives `None`; a truthy non-castable value raises. -/
def optCoord (d : Payload) (k : String) : Except PyErr (Option ℚ) :=
  match plookup d k with
  | none => .ok none
  | some v =>
      if truthy v then
        match pyFloat v with
        | some q => .ok (some q)
        | none => .error .castError
      else .ok none

/-- `{f: data[f] for f in features_order}` (line 163): the stored feature
mapping, raising if a key is absent (unreachable after line 130 succeeded). -/
def featuresJsonAux (d : Payload) : List String → Except PyErr (List (String × JVal))
  | [] => .ok []
  | f :: fs =>
      match plookup d f with
      | none => .error (.keyError f)
      | some v =>
          match featuresJsonAux d fs with
          | .error e => .error e
          | .ok rest => .ok ((f, v) :: rest)

/-- The serialized feature mapping of a payload. -/
def featuresJson (d : Payload) : Except PyErr (List (String × JVal)) :=
  featuresJsonAux d features_order

/-- Result of one `/predict` request: the handler outcome, the table afterwards,
and the trace of external effects in program order. -/
structure PredictOut where
  result : Except PyErr Response
  db : DbState
  events : List Event

/-- The `/predict` handler (lines 125-175), with every fallible step in source
order: build vector, scale/score, threshold trigger, optional email alert,
evaluate the INSERT tuple (coordinates, feature mapping), then execute+commit. -/
def predict (m : ModelArtifacts) (w : ExtWorld) (now : String) (db : DbState)
    (d : Payload) : PredictOut :=
  match buildVector d with
  | .error e => ⟨.error e, db, []⟩
  | .ok x =>
    let xScaled := m.scalerTransform x
    let raw_pred := m.modelPredict xScaled
    let score := m.decision_function xScaled
    match thresholdTrigger d with
    | .error e => ⟨.error e, db, []⟩
    | .ok trig =>
      let final_label := if raw_pred = -1 ∨ trig then "CRITICAL" else "SAFE"
      let emailEvents :=
        alertEvents w ⟨final_label, plookup d "latitude", plookup d "longitude", score⟩
      match optCoord d "latitude" with
      | .error e => ⟨.error e, db, emailEvents⟩
      | .ok lat =>
        match optCoord d "longitude" with
        | .error e => ⟨.error e, db, emailEvents⟩
        | .ok lon =>
          match featuresJson d with
          | .error e => ⟨.error e, db, emailEvents⟩
          | .ok fj =>
            if w.dbOk then
              let r : Record :=
                ⟨db.nextId, now, none, none, lat, lon, fj, raw_pred, score, some final_label⟩
              ⟨.ok ⟨true, final_label, raw_pred, score⟩,
               ⟨db.records ++ [r], db.nextId + 1⟩,
               emailEvents ++ [.dbInsert r]⟩
            else ⟨.error .dbError, db, emailEvents⟩

/-- HTTP status of a handler outcome: 200 on a jsonify return, 500 for any
uncaught exception (Flask's Internal Server Error). -/
def httpStatus : Except PyErr Response → ℕ
  | .ok _ => 200
  | .error _ => 500

/-- A 4xx-class (client error) HTTP status. -/
def isClientError (n : ℕ) : Prop := 400 ≤ n ∧ n < 500

/-- Line 186: `r["label"] if r["label"] else ("CRITICAL" if raw == -1 else "SAFE")`.
The stored label is used when truthy (non-null and non-empty); otherwise the
label is derived from the raw verdict. -/
def labelOnRead (stored : Option String) (raw : Int) : String :=
  if envTruthy stored then stored.getD ""
  else if raw = -1 then "CRITICAL" else "SAFE"

/-- One element of the `history` JSON list (lines 188-197). -/
structure HistoryItem where
  id : ℕ
  timestamp : String
  latitude : Option ℚ
  longitude : Option ℚ
  features : List (String × JVal)
  raw_prediction : Int
  decision_score : ℚ
  label : String
deriving DecidableEq, Repr

/-- Projection of a stored row to its `/history` JSON element. -/
def toItem (r : Record) : HistoryItem :=
  ⟨r.id, r.timestamp, r.latitude, r.longitude, r.features_json,
   r.raw_prediction, r.decision_score, labelOnRead r.label r.raw_prediction⟩

/-- `ORDER BY id DESC`: descending-id order on rows. -/
def recOrder (a b : Record) : Prop := b.id ≤ a.id

instance : DecidableRel recOrder := fun a b => Nat.decLe b.id a.id

instance : IsTotal Record recOrder :=
  ⟨fun a b => by unfold recOrder; exact Or.symm (Nat.le_total a.id b.id)⟩

instance : IsTrans Record recOrder :=
  ⟨fun _ _ _ h h₂ => by unfold recOrder at *; exact Nat.le_trans h₂ h⟩

/-- `SELECT * FROM predictions ORDER BY id DESC LIMIT 100` (line 182). -/
def historyRows (db : DbState) : List Record :=
  (db.records.insertionSort recOrder).take 100

/-- The `/history` handler (lines 180-199): newest-100 rows, each projected
with the label-on-read rule. -/
def history (db : DbState) : List HistoryItem :=
  (historyRows db).map toItem

/-- Table invariant maintained by SQLite: the AUTOINCREMENT counter is strictly
above every issued id. -/
def ValidDb (db : DbState) : Prop := ∀ r ∈ db.records, r.id < db.nextId

/-! ### Derived abbreviations for the successful path of `predict` -/

/-- The raw verdict of the model on the scaled vector. -/
def predRaw (m : ModelArtifacts) (x : List ℚ) : Int := m.modelPredict (m.scalerTransform x)

/-- The decision score of the model on the scaled vector. -/
def predScore (m : ModelArtifacts) (x : List ℚ) : ℚ := m.decision_function (m.scalerTransform x)

/-- Line 137: the final label combining verdict and trigger. -/
def predLabel (m : ModelArtifacts) (x : List ℚ) (trig : Bool) : String :=
  if predRaw m x = -1 ∨ trig then "CRITICAL" else "SAFE"

/-- The alert message composed at lines 143-147. -/
def predMsg (m : ModelArtifacts) (d : Payload) (x : List ℚ) (trig : Bool) : AlertMsg :=
  ⟨predLabel m x trig, plookup d "latitude", plookup d "longitude", predScore m x⟩

/-- The row inserted at lines 152-167. -/
def predRecord (m : ModelArtifacts) (now : String) (db : DbState)
    (x : List ℚ) (trig : Bool) (lat lon : Option ℚ) (fj : List (String × JVal)) : Record :=
  ⟨db.nextId, now, none, none, lat, lon, fj, predRaw m x, predScore m x,
   some (predLabel m x trig)⟩

/-! ### Shape lemmas for `predict` -/

/-- Value of `predict` when every fallible step succeeds and the commit goes
through. -/
theorem predict_eq_ok (m : ModelArtifacts) (w : ExtWorld) (now : String)
    (db : DbState) (d : Payload) (x : List ℚ) (trig : Bool)
    (lat lon : Option ℚ) (fj : List (String × JVal))
    (hx : buildVector d = .ok x) (ht : thresholdTrigger d = .ok trig)
    (hlat : optCoord d "latitude" = .ok lat)
    (hlon : optCoord d "longitude" = .ok lon)
    (hfj : featuresJson d = .ok fj) (hdb : w.dbOk = true) :
    predict m w now db d =
      ⟨.ok ⟨true, predLabel m x trig, predRaw m x, predScore m x⟩,
       ⟨db.records ++ [predRecord m now db x trig lat lon fj], db.nextId + 1⟩,
       alertEvents w (predMsg m d x trig) ++ [.dbInsert (predRecord m now db x trig lat lon fj)]⟩ := by
  unfold predict
  rw [hx, ht, hlat, hlon, hfj]
  simp only [hdb, if_true]
  rfl

/-- Value of `predict` when every step up to the insert succeeds but the
database write fails: the alert has already gone out, the table is unchanged,
and the caller gets an error. -/
theorem predict_eq_dbFail (m : ModelArtifacts) (w : ExtWorld) (now : String)
    (db : DbState) (d : Payload) (x : List ℚ) (trig : Bool)
    (lat lon : Option ℚ) (fj : List (String × JVal))
    (hx : buildVector d = .ok x) (ht : thresholdTrigger d = .ok trig)
    (hlat : optCoord d "latitude" = .ok lat)
    (hlon : optCoord d "longitude" = .ok lon)
    (hfj : featuresJson d = .ok fj) (hdb : w.dbOk = false) :
    predict m w now db d = ⟨.error .dbError, db, alertEvents w (predMsg m d x trig)⟩ := by
  unfold predict
  rw [hx, ht, hlat, hlon, hfj]
  simp only [hdb]
  rfl

/-- Value of `predict` when the vector build (line 130) raises. -/
theorem predict_eq_buildErr (m : ModelArtifacts) (w : ExtWorld) (now : String)
    (db : DbState) (d : Payload) (e : PyErr) (hx : buildVector d = .error e) :
    predict m w now db d = ⟨.error e, db, []⟩ := by
  unfold predict
  rw [hx]

/-- Value of `predict` when the trigger evaluation (line 136) raises. -/
theorem predict_eq_trigErr (m : ModelArtifacts) (w : ExtWorld) (now : String)
    (db : DbState) (d : Payload) (x : List ℚ) (e : PyErr)
    (hx : buildVector d = .ok x) (ht : thresholdTrigger d = .error e) :
    predict m w now db d = ⟨.error e, db, []⟩ := by
  unfold predict
  rw [hx, ht]

/-- Value of `predict` when the latitude cast (line 161) raises: the alert has
already been dispatched but nothing is stored. -/
theorem predict_eq_latErr (m : ModelArtifacts) (w : ExtWorld) (now : String)
    (db : DbState) (d : Payload) (x : List ℚ) (trig : Bool) (e : PyErr)
    (hx : buildVector d = .ok x) (ht : thresholdTrigger d = .ok trig)
    (hlat : optCoord d "latitude" = .error e) :
    predict m w now db d = ⟨.error e, db, alertEvents w (predMsg m d x trig)⟩ := by
  unfold predict
  rw [hx, ht, hlat]
  rfl

/-- Value of `predict` when the longitude cast (line 162) raises. -/
theorem predict_eq_lonErr (m : ModelArtifacts) (w : ExtWorld) (now : String)
    (db : DbState) (d : Payload) (x : List ℚ) (trig : Bool) (lat : Option ℚ) (e : PyErr)
    (hx : buildVector d = .ok x) (ht : thresholdTrigger d = .ok trig)
    (hlat : optCoord d "latitude" = .ok lat) (hlon : optCoord d "longitude" = .error e) :
    predict m w now db d = ⟨.error e, db, alertEvents w (predMsg m d x trig)⟩ := by
  unfold predict
  rw [hx, ht, hlat, hlon]
  rfl

/-- Value of `predict` when the feature serialization (line 163) raises. -/
theorem predict_eq_fjErr (m : ModelArtifacts) (w : ExtWorld) (now : String)
    (db : DbState) (d : Payload) (x : List ℚ) (trig : Bool) (lat lon : Option ℚ) (e : PyErr)
    (hx : buildVector d = .ok x) (ht : thresholdTrigger d = .ok trig)
    (hlat : optCoord d "latitude" = .ok lat) (hlon : optCoord d "longitude" = .ok lon)
    (hfj : featuresJson d = .error e) :
    predict m w now db d = ⟨.error e, db, alertEvents w (predMsg m d x trig)⟩ := by
  unfold predict
  rw [hx, ht, hlat, hlon, hfj]
  rfl

/-- Inversion: a 200 response means every fallible step succeeded and the
commit went through. -/
theorem predict_ok_inv (m : ModelArtifacts) (w : ExtWorld) (now : String)
    (db : DbState) (d : Payload) (resp : Response)
    (h : (predict m w now db d).result = .ok resp) :
    ∃ x trig lat lon fj, buildVector d = .ok x ∧ thresholdTrigger d = .ok trig ∧
      optCoord d "latitude" = .ok lat ∧ optCoord d "longitude" = .ok lon ∧
      featuresJson d = .ok fj ∧ w.dbOk = true := by
  unfold predict at h
  cases hx : buildVector d with
  | error e => rw [hx] at h; exact absurd h (by simp)
  | ok x =>
  rw [hx] at h
  cases ht : thresholdTrigger d with
  | error e => rw [ht] at h; exact absurd h (by simp)
  | ok trig =>
  rw [ht] at h
  cases hlat : optCoord d "latitude" with
  | error e => rw [hlat] at h; exact absurd h (by simp)
  | ok lat =>
  rw [hlat] at h
  cases hlon : optCoord d "longitude" with
  | error e => rw [hlon] at h; exact absurd h (by simp)
  | ok lon =>
  rw [hlon] at h
  cases hfj : featuresJson d with
  | error e => rw [hfj] at h; exact absurd h (by simp)
  | ok fj =>
  rw [hfj] at h
  cases hdb : w.dbOk with
  | false => rw [hdb] at h; exact absurd h (by simp)
  | true => exact ⟨x, trig, lat, lon, fj, rfl, rfl, rfl, rfl, rfl, rfl⟩

/-- The trigger flag of line 136 is set exactly when some entry of the
threshold table is strictly exceeded by the (re-cast) submitted value. -/
theorem thresholdTriggerAux_iff (d : Payload) (l : List (String × ℚ)) :
    ∀ b, thresholdTriggerAux d l = .ok b →
    (b = true ↔ ∃ p ∈ l, ∃ q, castFeature d p.1 = .ok q ∧ p.2 < q) := by
  induction l with
  | nil =>
      intro b h
      simp only [thresholdTriggerAux] at h
      injection h with hb
      subst hb
      simp
  | cons p rest ih =>
      obtain ⟨f, t⟩ := p
      intro b h
      simp only [thresholdTriggerAux] at h
      cases hc : castFeature d f with
      | error e => rw [hc] at h; exact absurd h (by simp)
      | ok q =>
          rw [hc] at h
          dsimp only at h
          by_cases hlt : t < q
          · rw [if_pos hlt] at h
            injection h with hb
            subst hb
            simp only [true_iff]
            exact ⟨(f, t), List.mem_cons_self _ _, q, hc, hlt⟩
          · rw [if_neg hlt] at h
            have hih := ih b h
            constructor
            · intro hb
              obtain ⟨p, hp, q', hq', hltq⟩ := hih.mp hb
              exact ⟨p, List.mem_cons_of_mem _ hp, q', hq', hltq⟩
            · rintro ⟨p, hp, q', hq', hltq⟩
              rcases List.mem_cons.mp hp with rfl | hp'
              · simp only at hq'
                rw [hc] at hq'
                injection hq' with he
                subst he
                exact absurd hltq hlt
              · exact hih.mpr ⟨p, hp', q', hq', hltq⟩

/-! ### Concrete fixtures used by witnesses and counterexamples -/

/-- A payload giving every feature the value 1. -/
def samplePayload : Payload := features_order.map (fun f => (f, JVal.num 1))

/-- Concrete artifacts: identity scaler, verdict 1, score 0. -/
def sampleModel : ModelArtifacts := ⟨id, fun _ => 1, fun _ => 0⟩

/-- Fully configured environment with working SMTP and database. -/
def sampleWorld : ExtWorld := ⟨some "ops", some "svc", some "pw", true, true⟩

/-- A fresh table. -/
def emptyDb : DbState := ⟨[], 1⟩

/-- C1: for a request whose 9 feature fields are present and castable (so the
handler answers 200), the final label is SAFE iff the raw verdict is 1 and every
raw submitted feature value is at most its critical threshold, and the label is
CRITICAL iff the raw verdict is -1 or some feature value strictly exceeds its
threshold (equality does not trigger). The raw verdict lies in {-1, 1} by the
isolation-forest convention the spec records. -/
theorem C1_thm (m : ModelArtifacts) (w : ExtWorld) (now : String)
    (db : DbState) (d : Payload) (resp : Response)
    (hok : (predict m w now db d).result = .ok resp)
    (hraw : resp.raw_prediction = 1 ∨ resp.raw_prediction = -1) :
    (resp.label = "SAFE" ↔
      (resp.raw_prediction = 1 ∧
        ∀ p ∈ critical_thresholds, ∀ q, castFeature d p.1 = .ok q → q ≤ p.2)) ∧
    (resp.label = "CRITICAL" ↔
      (resp.raw_prediction = -1 ∨
        ∃ p ∈ critical_thresholds, ∃ q, castFeature d p.1 = .ok q ∧ p.2 < q)) := by
  obtain ⟨x, trig, lat, lon, fj, hx, ht, hlat, hlon, hfj, hdb⟩ :=
    predict_ok_inv m w now db d resp hok
  rw [predict_eq_ok m w now db d x trig lat lon fj hx ht hlat hlon hfj hdb] at hok
  injection hok with hresp
  subst hresp
  have htrig := thresholdTriggerAux_iff d critical_thresholds trig ht
  simp only [predLabel] at hraw ⊢
  by_cases hm : predRaw m x = -1 ∨ trig = true
  · rw [if_pos hm]
    constructor
    · constructor
      · intro hs; exact absurd hs (by decide)
      · rintro ⟨h1, hall⟩
        rcases hm with hm | hm
        · rw [hm] at h1; exact absurd h1 (by decide)
        · obtain ⟨p, hp, q, hq, hltq⟩ := htrig.mp hm
          exact absurd hltq (not_lt.mpr (hall p hp q hq))
    · constructor
      · intro _
        rcases hm with hm | hm
        · exact Or.inl hm
        · exact Or.inr (htrig.mp hm)
      · intro _; rfl
  · rw [if_neg hm]
    push_neg at hm
    obtain ⟨hm1, hm2⟩ := hm
    have h1 : predRaw m x = 1 := by
      rcases hraw with h | h
      · exact h
      · exact absurd h hm1
    constructor
    · constructor
      · intro _
        refine ⟨h1, fun p hp q hq => ?_⟩
        by_contra hle
        exact hm2 (htrig.mpr ⟨p, hp, q, hq, not_le.mp hle⟩)
      · intro _; rfl
    · constructor
      · intro hs; exact absurd hs (by decide)
      · rintro (hc | hc)
        · exact absurd hc hm1
        · exact absurd (htrig.mpr hc) hm2

/-- Witness for C1 at a concrete request with all features 1 and verdict 1. -/
theorem C1_witness :
    ((⟨true, "SAFE", 1, 0⟩ : Response).label = "SAFE" ↔
      ((⟨true, "SAFE", 1, 0⟩ : Response).raw_prediction = 1 ∧
        ∀ p ∈ critical_thresholds, ∀ q, castFeature samplePayload p.1 = .ok q → q ≤ p.2)) ∧
    ((⟨true, "SAFE", 1, 0⟩ : Response).label = "CRITICAL" ↔
      ((⟨true, "SAFE", 1, 0⟩ : Response).raw_prediction = -1 ∨
        ∃ p ∈ critical_thresholds, ∃ q, castFeature samplePayload p.1 = .ok q ∧ p.2 < q)) :=
  C1_thm sampleModel sampleWorld "t0" emptyDb samplePayload ⟨true, "SAFE", 1, 0⟩ (by rfl)
    (Or.inl rfl)

/-- If some feature of `l` is missing or non-castable, the vector build of
line 130 raises. -/
theorem buildVectorAux_err (d : Payload) (f : String) (e₀ : PyErr)
    (hf : castFeature d f = .error e₀) :
    ∀ l, f ∈ l → ∃ e, buildVectorAux d l = .error e := by
  intro l
  induction l with
  | nil => intro h; exact absurd h (List.not_mem_nil f)
  | cons g rest ih =>
      intro hmem
      simp only [buildVectorAux]
      cases hc : castFeature d g with
      | error e => exact ⟨e, rfl⟩
      | ok q =>
          rcases List.mem_cons.mp hmem with rfl | hmem'
          · have hcon := hf.symm.trans hc
            exact absurd hcon (by simp)
          · obtain ⟨e, he⟩ := ih hmem'
            rw [he]
            exact ⟨e, rfl⟩

/-- A payload carrying only the first 8 of the 9 required features. -/
def shortPayload : Payload := (features_order.take 8).map (fun f => (f, JVal.num 1))

/-- C2 counterexample: a request missing a required feature is answered with an
HTTP 500 (Flask's handling of the uncaught `KeyError`), which is not a
4xx-class client error; the history store is unchanged. -/
theorem C2_counterexample :
    httpStatus (predict sampleModel sampleWorld "t0" emptyDb shortPayload).result = 500 ∧
    ¬ isClientError (httpStatus (predict sampleModel sampleWorld "t0" emptyDb shortPayload).result) ∧
    (predict sampleModel sampleWorld "t0" emptyDb shortPayload).db = emptyDb := by
  refine ⟨rfl, ?_, rfl⟩
  intro hc
  have h2 := hc.2
  rw [show httpStatus (predict sampleModel sampleWorld "t0" emptyDb shortPayload).result = 500 from rfl] at h2
  exact absurd h2 (by decide)

/-- C2 (amended): a request missing a required feature field, or carrying a
non-castable one, makes the handler raise before anything is persisted: the
outcome is an uncaught exception (HTTP 500 server error, not 4xx), the store
is unchanged, and no side effect (email or insert) happens. -/
theorem C2_thm (m : ModelArtifacts) (w : ExtWorld) (now : String) (db : DbState)
    (d : Payload) (f : String) (hf : f ∈ features_order)
    (hbad : plookup d f = none ∨ ∃ v, plookup d f = some v ∧ pyFloat v = none) :
    ∃ e, predict m w now db d = ⟨.error e, db, []⟩ ∧
      httpStatus (predict m w now db d).result = 500 := by
  have hcf : ∃ e₀, castFeature d f = .error e₀ := by
    rcases hbad with h | ⟨v, hv, hpf⟩
    · exact ⟨.keyError f, by simp [castFeature, h]⟩
    · exact ⟨.castError, by simp [castFeature, hv, hpf]⟩
  obtain ⟨e₀, he₀⟩ := hcf
  obtain ⟨e, he⟩ := buildVectorAux_err d f e₀ he₀ features_order hf
  refine ⟨e, predict_eq_buildErr m w now db d e he, ?_⟩
  rw [predict_eq_buildErr m w now db d e he]
  rfl

/-- Witness for C2 at the concrete payload missing its ninth feature. -/
theorem C2_witness :
    ∃ e, predict sampleModel sampleWorld "t0" emptyDb shortPayload = ⟨.error e, emptyDb, []⟩ ∧
      httpStatus (predict sampleModel sampleWorld "t0" emptyDb shortPayload).result = 500 :=
  C2_thm sampleModel sampleWorld "t0" emptyDb shortPayload
    "Stage of Ground Water Extraction (%)" (by decide) (Or.inl (by decide))

/-- C3: the HTTP response and the resulting table state of `/predict` do not
depend on any email-related configuration or on the SMTP outcome: two worlds
agreeing on the database outcome produce the same response and the same store,
whether the alert is skipped, sent, or fails. -/
theorem C3_thm (m : ModelArtifacts) (now : String) (db : DbState) (d : Payload)
    (w w' : ExtWorld) (hdb : w.dbOk = w'.dbOk) :
    (predict m w now db d).result = (predict m w' now db d).result ∧
    (predict m w now db d).db = (predict m w' now db d).db := by
  cases hx : buildVector d with
  | error e =>
      rw [predict_eq_buildErr m w now db d e hx, predict_eq_buildErr m w' now db d e hx]
      exact ⟨rfl, rfl⟩
  | ok x =>
  cases ht : thresholdTrigger d with
  | error e =>
      rw [predict_eq_trigErr m w now db d x e hx ht, predict_eq_trigErr m w' now db d x e hx ht]
      exact ⟨rfl, rfl⟩
  | ok trig =>
  cases hlat : optCoord d "latitude" with
  | error e =>
      rw [predict_eq_latErr m w now db d x trig e hx ht hlat,
          predict_eq_latErr m w' now db d x trig e hx ht hlat]
      exact ⟨rfl, rfl⟩
  | ok lat =>
  cases hlon : optCoord d "longitude" with
  | error e =>
      rw [predict_eq_lonErr m w now db d x trig lat e hx ht hlat hlon,
          predict_eq_lonErr m w' now db d x trig lat e hx ht hlat hlon]
      exact ⟨rfl, rfl⟩
  | ok lon =>
  cases hfj : featuresJson d with
  | error e =>
      rw [predict_eq_fjErr m w now db d x trig lat lon e hx ht hlat hlon hfj,
          predict_eq_fjErr m w' now db d x trig lat lon e hx ht hlat hlon hfj]
      exact ⟨rfl, rfl⟩
  | ok fj =>
  cases hwdb : w.dbOk with
  | true =>
      have hw' : w'.dbOk = true := by rw [← hdb]; exact hwdb
      rw [predict_eq_ok m w now db d x trig lat lon fj hx ht hlat hlon hfj hwdb,
          predict_eq_ok m w' now db d x trig lat lon fj hx ht hlat hlon hfj hw']
      exact ⟨rfl, rfl⟩
  | false =>
      have hw' : w'.dbOk = false := by rw [← hdb]; exact hwdb
      rw [predict_eq_dbFail m w now db d x trig lat lon fj hx ht hlat hlon hfj hwdb,
          predict_eq_dbFail m w' now db d x trig lat lon fj hx ht hlat hlon hfj hw']
      exact ⟨rfl, rfl⟩

/-- A world with no alert destination, no credentials, and a failing SMTP
server, but the same database outcome as `sampleWorld`. -/
def sampleWorldNoEmail : ExtWorld := ⟨none, none, none, false, true⟩

/-- Witness for C3: a fully configured mailing world and a world with alerting
disabled give identical responses and stores. -/
theorem C3_witness :
    (predict sampleModel sampleWorld "t0" emptyDb samplePayload).result =
      (predict sampleModel sampleWorldNoEmail "t0" emptyDb samplePayload).result ∧
    (predict sampleModel sampleWorld "t0" emptyDb samplePayload).db =
      (predict sampleModel sampleWorldNoEmail "t0" emptyDb samplePayload).db :=
  C3_thm sampleModel "t0" emptyDb samplePayload sampleWorld sampleWorldNoEmail rfl

/-- C4: `/history` returns at most 100 records and, because `id` is a unique
primary key, the returned list is strictly descending in id. -/
theorem C4_thm (db : DbState)
    (hnd : db.records.Pairwise (fun a b => a.id ≠ b.id)) :
    (history db).length ≤ 100 ∧
    (history db).Pairwise (fun a b => b.id < a.id) := by
  constructor
  · simp only [history, historyRows, List.length_map, List.length_take]
    exact min_le_left _ _
  · have hs : (db.records.insertionSort recOrder).Pairwise recOrder :=
      List.sorted_insertionSort recOrder db.records
    have hperm := List.perm_insertionSort recOrder db.records
    have hne : (db.records.insertionSort recOrder).Pairwise (fun a b => a.id ≠ b.id) :=
      (hperm.pairwise_iff (fun h => Ne.symm h)).mpr hnd
    have hlt : (db.records.insertionSort recOrder).Pairwise (fun a b => b.id < a.id) :=
      (hs.and hne).imp (fun h => lt_of_le_of_ne h.1 (Ne.symm h.2))
    have htake : (historyRows db).Pairwise (fun a b => b.id < a.id) :=
      List.Pairwise.sublist (List.take_sublist 100 _) hlt
    simp only [history]
    exact List.pairwise_map.mpr htake

/-- A table holding two rows with distinct ids. -/
def twoRowDb : DbState :=
  ⟨[⟨1, "t1", none, none, none, none, [], 1, 0, some "SAFE"⟩,
    ⟨2, "t2", none, none, none, none, [], -1, 0, some "CRITICAL"⟩], 3⟩

/-- Witness for C4 on a concrete two-row table. -/
theorem C4_witness :
    (history twoRowDb).length ≤ 100 ∧
    (history twoRowDb).Pairwise (fun a b => b.id < a.id) :=
  C4_thm twoRowDb (by decide)

/-- A table whose single row has the empty string (not NULL) in its label
column. -/
def legacyEmptyLabelDb : DbState :=
  ⟨[⟨1, "t1", none, none, none, none, [], 1, 0, some ""⟩], 2⟩

/-- C5 counterexample: a stored record with a non-null (empty-string) label is
returned by `/history` with the derived label "SAFE" instead of its stored
label, because line 186 tests truthiness rather than nullness. -/
theorem C5_counterexample :
    legacyEmptyLabelDb.records.map Record.label = [some ""] ∧
    (history legacyEmptyLabelDb).map HistoryItem.label = ["SAFE"] ∧
    ((some "" : Option String) ≠ none) ∧ ("SAFE" : String) ≠ "" := by decide

/-- C5 (amended): every item `/history` returns comes from a stored record; a
null or empty-string label is derived on read as CRITICAL when the raw verdict
is -1 and SAFE otherwise, while a non-null, non-empty stored label is returned
unchanged. -/
theorem C5_thm (db : DbState) (it : HistoryItem) (hit : it ∈ history db) :
    ∃ r ∈ db.records, it = toItem r ∧
      ((r.label = none ∨ r.label = some "") →
        it.label = (if r.raw_prediction = -1 then "CRITICAL" else "SAFE")) ∧
      (∀ s, r.label = some s → s ≠ "" → it.label = s) := by
  simp only [history] at hit
  obtain ⟨r, hr, rfl⟩ := List.mem_map.mp hit
  have hr' : r ∈ db.records := by
    have h2 : r ∈ db.records.insertionSort recOrder :=
      (List.take_sublist 100 _).subset hr
    exact (List.mem_insertionSort recOrder).mp h2
  refine ⟨r, hr', rfl, ?_, ?_⟩
  · rintro (hl | hl) <;> simp [toItem, labelOnRead, envTruthy, hl]
  · intro s hs hne
    simp [toItem, labelOnRead, envTruthy, hs, hne]

/-- A legacy row: inserted before the label column existed, so its label is
NULL and its verdict is -1. -/
def legacyNullRow : Record := ⟨1, "t1", none, none, none, none, [], -1, 0, none⟩

/-- The table holding only the legacy row. -/
def legacyNullDb : DbState := ⟨[legacyNullRow], 2⟩

/-- Witness for C5: the legacy NULL-label row is returned with the derived
label. -/
theorem C5_witness :
    ∃ r ∈ legacyNullDb.records, toItem legacyNullRow = toItem r ∧
      ((r.label = none ∨ r.label = some "") →
        (toItem legacyNullRow).label =
          (if r.raw_prediction = -1 then "CRITICAL" else "SAFE")) ∧
      (∀ s, r.label = some s → s ≠ "" → (toItem legacyNullRow).label = s) :=
  C5_thm legacyNullDb (toItem legacyNullRow) (by decide)

/-- Lookup in an association list with an explicit head. -/
theorem plookup_cons (f : String) (v : JVal) (rest : List (String × JVal)) (k : String) :
    plookup ((f, v) :: rest) k = if f = k then some v else plookup rest k := by
  simp only [plookup, List.find?]
  by_cases h : f = k
  · simp [h]
  · simp [h]

/-- `optCoord` yields NULL when the field is absent. -/
theorem optCoord_eq_none_of_absent (d : Payload) (k : String)
    (h : plookup d k = none) : optCoord d k = .ok none := by
  unfold optCoord
  rw [h]

/-- `optCoord` yields NULL when the field is present but falsy. -/
theorem optCoord_eq_none_of_falsy (d : Payload) (k : String) (v : JVal)
    (h : plookup d k = some v) (ht : truthy v = false) : optCoord d k = .ok none := by
  unfold optCoord
  rw [h]
  simp [ht]

/-- `optCoord` yields the cast value when the field is truthy and castable. -/
theorem optCoord_eq_some (d : Payload) (k : String) (v : JVal) (q : ℚ)
    (h : plookup d k = some v) (ht : truthy v = true) (hq : pyFloat v = some q) :
    optCoord d k = .ok (some q) := by
  unfold optCoord
  rw [h]
  simp [ht, hq]

/-- `optCoord` raises when the field is truthy but not castable. -/
theorem optCoord_eq_err (d : Payload) (k : String) (v : JVal)
    (h : plookup d k = some v) (ht : truthy v = true) (hq : pyFloat v = none) :
    optCoord d k = .error .castError := by
  unfold optCoord
  rw [h]
  simp [ht, hq]

/-- C6 (amended): on a successful request the persisted coordinates are NULL
when the payload field is absent or falsy, and the cast number when the field
is truthy and castable; a truthy non-castable coordinate makes the whole
request fail with a server error and nothing is persisted. -/
theorem C6_thm :
    (∀ (m : ModelArtifacts) (w : ExtWorld) (now : String) (db : DbState) (d : Payload)
        (resp : Response),
      (predict m w now db d).result = .ok resp →
      ∃ r, (predict m w now db d).db.records = db.records ++ [r] ∧
        (plookup d "latitude" = none → r.latitude = none) ∧
        (∀ v, plookup d "latitude" = some v → truthy v = false → r.latitude = none) ∧
        (∀ v q, plookup d "latitude" = some v → truthy v = true → pyFloat v = some q →
          r.latitude = some q) ∧
        (plookup d "longitude" = none → r.longitude = none) ∧
        (∀ v, plookup d "longitude" = some v → truthy v = false → r.longitude = none) ∧
        (∀ v q, plookup d "longitude" = some v → truthy v = true → pyFloat v = some q →
          r.longitude = some q)) ∧
    (∀ (m : ModelArtifacts) (w : ExtWorld) (now : String) (db : DbState) (d : Payload)
        (k : String) (v : JVal), (k = "latitude" ∨ k = "longitude") →
      plookup d k = some v → truthy v = true → pyFloat v = none →
      ∃ e, (predict m w now db d).result = .error e ∧ (predict m w now db d).db = db) := by
  constructor
  · intro m w now db d resp hok
    obtain ⟨x, trig, lat, lon, fj, hx, ht, hlat, hlon, hfj, hdb⟩ :=
      predict_ok_inv m w now db d resp hok
    refine ⟨predRecord m now db x trig lat lon fj, ?_, ?_, ?_, ?_, ?_, ?_, ?_⟩
    · rw [predict_eq_ok m w now db d x trig lat lon fj hx ht hlat hlon hfj hdb]
    · intro h
      have := (optCoord_eq_none_of_absent d "latitude" h).symm.trans hlat
      injection this with h'
      simp [predRecord, ← h']
    · intro v h htr
      have := (optCoord_eq_none_of_falsy d "latitude" v h htr).symm.trans hlat
      injection this with h'
      simp [predRecord, ← h']
    · intro v q h htr hq
      have := (optCoord_eq_some d "latitude" v q h htr hq).symm.trans hlat
      injection this with h'
      simp [predRecord, ← h']
    · intro h
      have := (optCoord_eq_none_of_absent d "longitude" h).symm.trans hlon
      injection this with h'
      simp [predRecord, ← h']
    · intro v h htr
      have := (optCoord_eq_none_of_falsy d "longitude" v h htr).symm.trans hlon
      injection this with h'
      simp [predRecord, ← h']
    · intro v q h htr hq
      have := (optCoord_eq_some d "longitude" v q h htr hq).symm.trans hlon
      injection this with h'
      simp [predRecord, ← h']
  · intro m w now db d k v hk hv htr hq
    cases hx : buildVector d with
    | error e =>
        refine ⟨e, ?_, ?_⟩ <;> rw [predict_eq_buildErr m w now db d e hx]
    | ok x =>
    cases ht : thresholdTrigger d with
    | error e =>
        refine ⟨e, ?_, ?_⟩ <;> rw [predict_eq_trigErr m w now db d x e hx ht]
    | ok trig =>
    rcases hk with rfl | rfl
    · have hlat : optCoord d "latitude" = .error .castError :=
        optCoord_eq_err d "latitude" v hv htr hq
      refine ⟨.castError, ?_, ?_⟩ <;>
        rw [predict_eq_latErr m w now db d x trig .castError hx ht hlat]
    · cases hlat : optCoord d "latitude" with
      | error e =>
          refine ⟨e, ?_, ?_⟩ <;>
            rw [predict_eq_latErr m w now db d x trig e hx ht hlat]
      | ok lat =>
          have hlon : optCoord d "longitude" = .error .castError :=
            optCoord_eq_err d "longitude" v hv htr hq
          refine ⟨.castError, ?_, ?_⟩ <;>
            rw [predict_eq_lonErr m w now db d x trig lat .castError hx ht hlat hlon]

/-- The sample payload with an additional latitude of 0 (a valid, castable
coordinate that Python finds falsy). -/
def zeroCoordPayload : Payload := ("latitude", JVal.num 0) :: samplePayload

/-- C6 counterexample: latitude 0 is supplied and castable, the request
succeeds, yet the stored latitude is NULL. -/
theorem C6_counterexample :
    plookup zeroCoordPayload "latitude" = some (JVal.num 0) ∧
    pyFloat (JVal.num 0) = some 0 ∧
    (predict sampleModel sampleWorld "t0" emptyDb zeroCoordPayload).result =
      .ok ⟨true, "SAFE", 1, 0⟩ ∧
    (predict sampleModel sampleWorld "t0" emptyDb zeroCoordPayload).db.records.map
      Record.latitude = [none] :=
  ⟨rfl, rfl, rfl, rfl⟩

/-- The sample payload with a truthy, non-castable latitude. -/
def badCoordPayload : Payload := ("latitude", JVal.str "abc") :: samplePayload

/-- The sample payload with a truthy, non-castable longitude. -/
def badLonPayload : Payload := ("longitude", JVal.str "abc") :: samplePayload

/-- Witness for C6: latitude 0 is stored as NULL on a successful request, and a
truthy non-castable latitude — or longitude — fails the request leaving the
store unchanged. -/
theorem C6_witness :
    (∃ r, (predict sampleModel sampleWorld "t0" emptyDb zeroCoordPayload).db.records =
        emptyDb.records ++ [r] ∧
      (plookup zeroCoordPayload "latitude" = none → r.latitude = none) ∧
      (∀ v, plookup zeroCoordPayload "latitude" = some v → truthy v = false →
        r.latitude = none) ∧
      (∀ v q, plookup zeroCoordPayload "latitude" = some v → truthy v = true →
        pyFloat v = some q → r.latitude = some q) ∧
      (plookup zeroCoordPayload "longitude" = none → r.longitude = none) ∧
      (∀ v, plookup zeroCoordPayload "longitude" = some v → truthy v = false →
        r.longitude = none) ∧
      (∀ v q, plookup zeroCoordPayload "longitude" = some v → truthy v = true →
        pyFloat v = some q → r.longitude = some q)) ∧
    (∃ e, (predict sampleModel sampleWorld "t0" emptyDb badCoordPayload).result = .error e ∧
      (predict sampleModel sampleWorld "t0" emptyDb badCoordPayload).db = emptyDb) ∧
    (∃ e, (predict sampleModel sampleWorld "t0" emptyDb badLonPayload).result = .error e ∧
      (predict sampleModel sampleWorld "t0" emptyDb badLonPayload).db = emptyDb) :=
  ⟨C6_thm.1 sampleModel sampleWorld "t0" emptyDb zeroCoordPayload ⟨true, "SAFE", 1, 0⟩ rfl,
   C6_thm.2 sampleModel sampleWorld "t0" emptyDb badCoordPayload "latitude" (JVal.str "abc")
     (Or.inl rfl) rfl rfl (by decide),
   C6_thm.2 sampleModel sampleWorld "t0" emptyDb badLonPayload "longitude" (JVal.str "abc")
     (Or.inr rfl) rfl rfl (by decide)⟩

/-- C9: on a successful request, a latitude or longitude that was supplied but
is falsy (the number 0, the empty string, `None`) is persisted as NULL: the
coordinate is lost even when it is a valid value such as 0. -/
theorem C9_thm (m : ModelArtifacts) (w : ExtWorld) (now : String) (db : DbState)
    (d : Payload) (resp : Response)
    (hok : (predict m w now db d).result = .ok resp) :
    ∃ r, (predict m w now db d).db.records = db.records ++ [r] ∧
      (∀ v, plookup d "latitude" = some v → truthy v = false → r.latitude = none) ∧
      (∀ v, plookup d "longitude" = some v → truthy v = false → r.longitude = none) := by
  obtain ⟨x, trig, lat, lon, fj, hx, ht, hlat, hlon, hfj, hdb⟩ :=
    predict_ok_inv m w now db d resp hok
  refine ⟨predRecord m now db x trig lat lon fj, ?_, ?_, ?_⟩
  · rw [predict_eq_ok m w now db d x trig lat lon fj hx ht hlat hlon hfj hdb]
  · intro v h htr
    have := (optCoord_eq_none_of_falsy d "latitude" v h htr).symm.trans hlat
    injection this with h'
    simp [predRecord, ← h']
  · intro v h htr
    have := (optCoord_eq_none_of_falsy d "longitude" v h htr).symm.trans hlon
    injection this with h'
    simp [predRecord, ← h']

/-- Witness for C9 at the concrete request whose latitude is the number 0. -/
theorem C9_witness :
    ∃ r, (predict sampleModel sampleWorld "t0" emptyDb zeroCoordPayload).db.records =
        emptyDb.records ++ [r] ∧
      (∀ v, plookup zeroCoordPayload "latitude" = some v → truthy v = false →
        r.latitude = none) ∧
      (∀ v, plookup zeroCoordPayload "longitude" = some v → truthy v = false →
        r.longitude = none) :=
  C9_thm sampleModel sampleWorld "t0" emptyDb zeroCoordPayload ⟨true, "SAFE", 1, 0⟩ rfl

/-- The mapping serialized at line 163 has exactly the canonical keys. -/
theorem featuresJsonAux_keys (d : Payload) :
    ∀ (l : List String) (fj : List (String × JVal)),
    featuresJsonAux d l = .ok fj → fj.map Prod.fst = l := by
  intro l
  induction l with
  | nil =>
      intro fj h
      simp only [featuresJsonAux] at h
      injection h with h'
      rw [← h']
      rfl
  | cons f fs ih =>
      intro fj h
      simp only [featuresJsonAux] at h
      cases hm : plookup d f with
      | none => rw [hm] at h; exact absurd h (by simp)
      | some v =>
          rw [hm] at h
          dsimp only at h
          cases hrest : featuresJsonAux d fs with
          | error e => rw [hrest] at h; exact absurd h (by simp)
          | ok rest =>
              rw [hrest] at h
              dsimp only at h
              injection h with h'
              rw [← h']
              simp [ih rest hrest]

/-- Looking a canonical key up in the serialized mapping gives exactly the
submitted value. -/
theorem featuresJsonAux_lookup (d : Payload) :
    ∀ (l : List String) (fj : List (String × JVal)),
    featuresJsonAux d l = .ok fj → ∀ f ∈ l, plookup fj f = plookup d f := by
  intro l
  induction l with
  | nil => intro fj _ f hf; exact absurd hf (List.not_mem_nil f)
  | cons g fs ih =>
      intro fj h f hf
      simp only [featuresJsonAux] at h
      cases hm : plookup d g with
      | none => rw [hm] at h; exact absurd h (by simp)
      | some v =>
          rw [hm] at h
          dsimp only at h
          cases hrest : featuresJsonAux d fs with
          | error e => rw [hrest] at h; exact absurd h (by simp)
          | ok rest =>
              rw [hrest] at h
              dsimp only at h
              injection h with h'
              rw [← h']
              rw [plookup_cons]
              by_cases hg : g = f
              · rw [if_pos hg, ← hg, hm]
              · rw [if_neg hg]
                rcases List.mem_cons.mp hf with rfl | hf'
                · exact absurd rfl hg
                · exact ih rest hrest f hf'

/-- Inserting a row whose id is strictly above every id in the table sorts to
the front. -/
theorem insertionSort_append_max (r : Record) :
    ∀ l : List Record, (∀ a ∈ l, a.id < r.id) →
    (l ++ [r]).insertionSort recOrder = r :: l.insertionSort recOrder := by
  intro l
  induction l with
  | nil => intro _; rfl
  | cons a l ih =>
      intro h
      have ha : a.id < r.id := h a (List.mem_cons_self a l)
      have hrec : ¬ recOrder a r := by
        unfold recOrder
        omega
      simp only [List.cons_append, List.insertionSort, List.append_eq]
      rw [ih (fun b hb => h b (List.mem_cons_of_mem a hb))]
      simp only [List.orderedInsert]
      rw [if_neg hrec]

/-- `/history` returns `min 100 n` items for a table of `n` rows. -/
theorem history_length (db : DbState) :
    (history db).length = min 100 db.records.length := by
  simp [history, historyRows, List.length_take, List.length_insertionSort]

/-- C7: on a successful request the stored feature mapping holds exactly the 9
canonical keys bound to the submitted values, and `/history` returns it intact
as the newest item (the new row has the largest id, so it sorts first and the
100-row cap cannot drop it). -/
theorem C7_thm (m : ModelArtifacts) (w : ExtWorld) (now : String) (db : DbState)
    (d : Payload) (resp : Response) (hv : ValidDb db)
    (hok : (predict m w now db d).result = .ok resp) :
    ∃ r, (predict m w now db d).db.records = db.records ++ [r] ∧
      r.features_json.map Prod.fst = features_order ∧
      (∀ f ∈ features_order, plookup r.features_json f = plookup d f) ∧
      (history (predict m w now db d).db).head? = some (toItem r) ∧
      (toItem r).features = r.features_json := by
  obtain ⟨x, trig, lat, lon, fj, hx, ht, hlat, hlon, hfj, hdb⟩ :=
    predict_ok_inv m w now db d resp hok
  have E := predict_eq_ok m w now db d x trig lat lon fj hx ht hlat hlon hfj hdb
  refine ⟨predRecord m now db x trig lat lon fj, ?_, ?_, ?_, ?_, rfl⟩
  · rw [E]
  · exact featuresJsonAux_keys d features_order fj hfj
  · exact featuresJsonAux_lookup d features_order fj hfj
  · rw [E]
    simp only [history, historyRows]
    rw [insertionSort_append_max (predRecord m now db x trig lat lon fj) db.records
          (fun a ha => hv a ha)]
    rw [show (100 : ℕ) = 99 + 1 from rfl, List.take_succ_cons]
    rfl

/-- Witness for C7 at the concrete all-ones request on an empty table. -/
theorem C7_witness :
    ∃ r, (predict sampleModel sampleWorld "t0" emptyDb samplePayload).db.records =
        emptyDb.records ++ [r] ∧
      r.features_json.map Prod.fst = features_order ∧
      (∀ f ∈ features_order, plookup r.features_json f = plookup samplePayload f) ∧
      (history (predict sampleModel sampleWorld "t0" emptyDb samplePayload).db).head? =
        some (toItem r) ∧
      (toItem r).features = r.features_json :=
  C7_thm sampleModel sampleWorld "t0" emptyDb samplePayload ⟨true, "SAFE", 1, 0⟩
    (fun r hr => absurd hr (List.not_mem_nil r)) rfl

/-- C8: every successful `/predict` appends exactly one new row, whose id is
strictly above every existing id; existing rows are preserved unchanged, the
table invariant is maintained, and the `/history` count grows by exactly one up
to the 100-row cap. -/
theorem C8_thm (m : ModelArtifacts) (w : ExtWorld) (now : String) (db : DbState)
    (d : Payload) (resp : Response) (hv : ValidDb db)
    (hok : (predict m w now db d).result = .ok resp) :
    ∃ r, (predict m w now db d).db.records = db.records ++ [r] ∧
      r.id = db.nextId ∧
      (∀ a ∈ db.records, a.id < r.id) ∧
      (∀ a ∈ db.records, a ∈ (predict m w now db d).db.records) ∧
      ValidDb (predict m w now db d).db ∧
      (history (predict m w now db d).db).length = min ((history db).length + 1) 100 := by
  obtain ⟨x, trig, lat, lon, fj, hx, ht, hlat, hlon, hfj, hdb⟩ :=
    predict_ok_inv m w now db d resp hok
  have E := predict_eq_ok m w now db d x trig lat lon fj hx ht hlat hlon hfj hdb
  refine ⟨predRecord m now db x trig lat lon fj, ?_, rfl, ?_, ?_, ?_, ?_⟩
  · rw [E]
  · exact fun a ha => hv a ha
  · intro a ha
    rw [E]
    exact List.mem_append_left _ ha
  · intro a ha
    rw [E] at ha
    simp only at ha
    rcases List.mem_append.mp ha with h | h
    · have := hv a h
      rw [E]
      simp only
      omega
    · rw [List.mem_singleton.mp h, E]
      simp [predRecord]
  · rw [E]
    rw [history_length, history_length]
    simp only [List.length_append, List.length_singleton]
    omega

/-- Witness for C8 at the concrete all-ones request on an empty table. -/
theorem C8_witness :
    ∃ r, (predict sampleModel sampleWorld "t0" emptyDb samplePayload).db.records =
        emptyDb.records ++ [r] ∧
      r.id = emptyDb.nextId ∧
      (∀ a ∈ emptyDb.records, a.id < r.id) ∧
      (∀ a ∈ emptyDb.records,
        a ∈ (predict sampleModel sampleWorld "t0" emptyDb samplePayload).db.records) ∧
      ValidDb (predict sampleModel sampleWorld "t0" emptyDb samplePayload).db ∧
      (history (predict sampleModel sampleWorld "t0" emptyDb samplePayload).db).length =
        min ((history emptyDb).length + 1) 100 :=
  C8_thm sampleModel sampleWorld "t0" emptyDb samplePayload ⟨true, "SAFE", 1, 0⟩
    (fun r hr => absurd hr (List.not_mem_nil r)) rfl

/-- C10: the alert is dispatched before the insert, so when the database write
fails on an otherwise valid request with alerting fully configured, the email
naming the final label and score has already been sent, yet the caller gets an
error and no row is stored: the request is not atomic. -/
theorem C10_thm (m : ModelArtifacts) (w : ExtWorld) (now : String) (db : DbState)
    (d : Payload) (x : List ℚ) (trig : Bool) (lat lon : Option ℚ)
    (fj : List (String × JVal)) (dest : String)
    (hx : buildVector d = .ok x) (ht : thresholdTrigger d = .ok trig)
    (hlat : optCoord d "latitude" = .ok lat) (hlon : optCoord d "longitude" = .ok lon)
    (hfj : featuresJson d = .ok fj)
    (hdest : w.alertEmail = some dest) (hde : dest ≠ "")
    (hs : envTruthy w.emailSender = true) (hp : envTruthy w.emailPassword = true)
    (hsm : w.smtpOk = true) (hdb : w.dbOk = false) :
    predict m w now db d =
      ⟨.error .dbError, db, [.emailSent dest (predMsg m d x trig)]⟩ ∧
    ∀ rr, Event.dbInsert rr ∉ (predict m w now db d).events := by
  have heq := predict_eq_dbFail m w now db d x trig lat lon fj hx ht hlat hlon hfj hdb
  have hev : alertEvents w (predMsg m d x trig) = [.emailSent dest (predMsg m d x trig)] := by
    simp [alertEvents, send_email_alert, hdest, hde, hs, hp, hsm]
  rw [heq, hev]
  refine ⟨rfl, ?_⟩
  intro rr h
  simp at h

/-- A fully configured mailing world whose database write fails. -/
def dbFailWorld : ExtWorld := ⟨some "ops", some "svc", some "pw", true, false⟩

/-- Witness for C10 at the concrete all-ones request: the alert goes out, the
response is an error, and nothing is inserted. -/
theorem C10_witness :
    predict sampleModel dbFailWorld "t0" emptyDb samplePayload =
      ⟨.error .dbError, emptyDb,
       [.emailSent "ops" (predMsg sampleModel samplePayload [1, 1, 1, 1, 1, 1, 1, 1, 1] false)]⟩ ∧
    ∀ rr, Event.dbInsert rr ∉ (predict sampleModel dbFailWorld "t0" emptyDb samplePayload).events :=
  C10_thm sampleModel dbFailWorld "t0" emptyDb samplePayload
    [1, 1, 1, 1, 1, 1, 1, 1, 1] false none none samplePayload "ops"
    rfl rfl rfl rfl rfl rfl (by decide) (by decide) (by decide) rfl rfl
